import Mathlib

/-!
Verification development for the Open edX session-bridging reverse proxy
(`src/fastapi_edx/main.py`).  The definitions below are a shallow embedding of
the proxy core: the link-resolution strategy chain, the HTML/URL content
rewriter, the redirect interception logic, the POST outbound-request builder,
and the per-endpoint error classification.  Each definition carries a comment
pointing at the source lines it embeds.  Machine-level concerns (actual HTTP
I/O, SQLAlchemy sessions) are represented by explicit data: the upstream fetch
is a `FetchOutcome` value handed to the handler, and the database is a pair of
association lists threaded through explicitly.
-/

set_option maxHeartbeats 1000000

/-! ## Generic string helpers (Python string-operation semantics on `String`) -/

/-- Containment of `sub` as a contiguous segment of a char list. -/
def isInfixCh (sub : List Char) : List Char → Bool
  | [] => sub.isEmpty
  | c :: rest => sub.isPrefixOf (c :: rest) || isInfixCh sub rest

/-- Python `sub in s` (substring containment). -/
def strContains (s sub : String) : Bool := isInfixCh sub.data s.data

/-- Python `s.startswith(p)`. -/
def strStarts (s p : String) : Bool := p.data.isPrefixOf s.data

/-- Python truthiness of an optional string: `None` and `""` are falsy. -/
def pyTruthy : Option String → Bool
  | none => false
  | some s => !s.data.isEmpty

/-- Python `a or b` on optional strings: keep `a` when truthy, else `b`. -/
def pyOr (a b : Option String) : Option String := if pyTruthy a then a else b

/-- Lookup in an association list, first match wins (dict/cookie `get`). -/
def lookupStr (m : List (String × String)) (k : String) : Option String :=
  (m.find? (fun p => p.1 == k)).map (fun p => p.2)

/-- Overwriting insert for an association list (`session.cookies.set`,
`headers[k] = v`). -/
def setStr (m : List (String × String)) (k v : String) : List (String × String) :=
  m.filter (fun p => p.1 != k) ++ [(k, v)]

/-- Prefix of `l` strictly before the first occurrence of `sep`
(Python `s.split(sep)[0]`). -/
def takeBeforeFirst (sep : List Char) : List Char → List Char
  | [] => []
  | c :: rest => if sep.isPrefixOf (c :: rest) then [] else c :: takeBeforeFirst sep rest

/-- Suffix of `l` strictly after the first occurrence of `sep`, when present. -/
def dropAfterFirst? (sep : List Char) : List Char → Option (List Char)
  | [] => none
  | c :: rest =>
    if sep.isPrefixOf (c :: rest) then some ((c :: rest).drop sep.length)
    else dropAfterFirst? sep rest

/-- Python `s.split(sep)[0]`. -/
def pySplit0 (s sep : String) : String := String.mk (takeBeforeFirst sep.data s.data)

/-- Python `s.split(sep)[1]`: the segment between the first and second
occurrence of `sep` (meaningful only when `sep` occurs in `s`). -/
def pySplit1 (s sep : String) : String :=
  String.mk (takeBeforeFirst sep.data ((dropAfterFirst? sep.data s.data).getD []))

/-- Everything after the first occurrence of `sep` (used for URL parsing). -/
def afterFirstStr (s sep : String) : String :=
  String.mk ((dropAfterFirst? sep.data s.data).getD [])

/-- Python `s.replace(pat, rep)` on char lists, fuel-indexed (fuel is the
input length, which bounds the number of emitted positions). -/
def replaceAllGo (pat rep : List Char) : Nat → List Char → List Char
  | 0, l => l
  | _ + 1, [] => []
  | fuel + 1, c :: rest =>
    if pat.isPrefixOf (c :: rest) && !pat.isEmpty then
      rep ++ replaceAllGo pat rep fuel ((c :: rest).drop pat.length)
    else c :: replaceAllGo pat rep fuel rest

/-- Python `s.replace(pat, rep)` (all occurrences, `pat` nonempty). -/
def strReplaceAll (s pat rep : String) : String :=
  String.mk (replaceAllGo pat.data rep.data s.data.length s.data)

/-- Python whitespace class (`\s` in regexes, `str.strip` default). -/
def isPySpace (c : Char) : Bool :=
  c == ' ' || c == '\t' || c == '\n' || c == '\r' || c == '\x0b' || c == '\x0c'

/-- Python `s.strip()`. -/
def pyStrip (s : String) : String :=
  String.mk (((s.data.dropWhile isPySpace).reverse.dropWhile isPySpace).reverse)

/-- ASCII lowering of one character (the path strings fed to `.lower()` in the
source are ASCII; full-Unicode case folding is not needed). -/
def charLower (c : Char) : Char :=
  if c.toNat ≥ 65 && c.toNat ≤ 90 then Char.ofNat (c.toNat + 32) else c

/-- Python `s.lower()` for ASCII strings. -/
def strToLower (s : String) : String := String.mk (s.data.map charLower)

/-- Join rendered `k=v` pairs with `&` (models `str(request.query_params)` /
`urlencode` for URL-safe keys and values; percent-encoding is abstracted). -/
def renderQuery : List (String × String) → String
  | [] => ""
  | [p] => p.1 ++ "=" ++ p.2
  | p :: rest => p.1 ++ "=" ++ p.2 ++ "&" ++ renderQuery rest

/-! ## Configuration (main.py lines 57-68, `os.getenv` defaults) -/

/-- Public base URL of this proxy (line 58, default value). -/
def FASTAPI_PUBLIC_BASE_URL : String := "http://localhost:8000"

/-- Main LMS origin (line 59, default value). -/
def OPENEDX_API_BASE : String := "http://localhost:18000"

/-- Learning micro-frontend origin (line 60, default value). -/
def LEARNING_MFE_URL : String := "http://localhost:2000"

/-- Default password used for registration/login (line 68, default value). -/
def DEFAULT_USER_PASSWORD : String := "ChangeMe!2345"

/-! ## Persistent data model (db.py tables `UserLink` and `UserToken`) -/

/-- Row of the `UserLink` table: maps a `link_id` to an email. -/
structure UserLink where
  link_id : String
  email : String
deriving DecidableEq, Repr

/-- Row of the `UserToken` table: stored session cookie and password. -/
structure UserToken where
  email : String
  access_token : String
  password : String
deriving DecidableEq, Repr

/-- The two persisted tables.  `first()` queries are `List.find?`. -/
structure Db where
  links : List UserLink
  tokens : List UserToken
deriving DecidableEq, Repr

/-- `db.query(UserLink).filter(UserLink.link_id == lid).first()`. -/
def findLink (db : Db) (lid : String) : Option UserLink :=
  db.links.find? (fun l => l.link_id == lid)

/-- `db.query(UserLink).filter(UserLink.email == email).first()`. -/
def findLinkByEmail (db : Db) (email : String) : Option UserLink :=
  db.links.find? (fun l => l.email == email)

/-- `db.query(UserToken).filter(UserToken.email == email).first()`. -/
def findToken (db : Db) (email : String) : Option UserToken :=
  db.tokens.find? (fun t => t.email == email)

/-- `db.query(UserToken).filter(UserToken.access_token == c).first()`. -/
def findTokenByCookie (db : Db) (c : String) : Option UserToken :=
  db.tokens.find? (fun t => t.access_token == c)

/-! ## Link resolution (main.py lines 1057-1097; the POST handler repeats the
same code verbatim at lines 1327-1361, so one embedding serves both). -/

/-- Strategy 1 (lines 1061-1073): parse `link_id` out of the Referer header.
Mirrors the `split(...)[1].split("?")[0].split("#")[0].split("/")[0]` chains
and the `elif` ordering of the three referer patterns. -/
def extractLinkIdFromReferer (referer : String) : Option String :=
  if referer.data.isEmpty then none
  else if strContains referer "/dashboard-proxy/" then
    some (pySplit0 (pySplit0 (pySplit0 (pySplit1 referer "/dashboard-proxy/") "?") "#") "/")
  else if strContains referer "/access/" then
    some (pySplit0 (pySplit0 (pySplit0 (pySplit1 referer "/access/") "?") "#") "/")
  else if strContains referer "/openedx-proxy/" then
    if strContains referer "link_id=" then
      some (pySplit0 (pySplit0 (pySplit1 referer "link_id=") "&") "#")
    else none
  else none

/-- Strategy 4 (lines 1084-1093): reverse lookup of the session cookie through
`UserToken` and then `UserLink`. -/
def resolveFromSession (cookies : List (String × String)) (db : Db) : Option String :=
  let sc := pyOr (lookupStr cookies "lms_sessionid") (lookupStr cookies "sessionid")
  if pyTruthy sc then
    match findTokenByCookie db ((sc).getD "") with
    | some tok =>
      match findLinkByEmail db tok.email with
      | some ul => some ul.link_id
      | none => none
    | none => none
  else none

/-- Strategies 3-4 (lines 1080-1093): query parameter, then session lookup. -/
def resolveFromQuery (qp cookies : List (String × String)) (db : Db) : Option String :=
  let s := lookupStr qp "link_id"
  if pyTruthy s then s else resolveFromSession cookies db

/-- Strategies 2-4 (lines 1076-1093): tracking cookie, then later strategies. -/
def resolveFromCookie (cookies qp : List (String × String)) (db : Db) : Option String :=
  let s := lookupStr cookies "edx_link_id"
  if pyTruthy s then s else resolveFromQuery qp cookies db

/-- The full fallback chain (lines 1057-1093).  Each later strategy runs only
when the accumulated `link_id` is still falsy (`if not link_id:`). -/
def resolveLinkId (referer : String) (cookies qp : List (String × String)) (db : Db) :
    Option String :=
  let s := extractLinkIdFromReferer referer
  if pyTruthy s then s else resolveFromCookie cookies qp db

/-! ## Content rewriter: per-match helper functions.

The navigation proxy rewrites HTML with `re.sub(r'href="(/[^"]*)"', f, ...)`
(and likewise for `action` and `src`).  Each regex matches an attribute whose
value starts with `/` and contains no double quote; the helper receives the
captured value and returns the replacement value.  The helpers below embed the
GET handler functions `add_link_id_to_href_smart` (lines 1267-1277),
`add_link_id_to_action` (lines 1258-1263) and `replace_src` (lines 1284-1288);
the POST handler repeats them verbatim (`add_link_id_to_href_post` lines
1809-1817, lines 1819-1834). -/

/-- Value-level body of `add_link_id_to_href_smart` / `add_link_id_to_href_post`. -/
def addLinkIdToHrefVal (lid v : String) : String :=
  if strContains v "?" || strStarts v "http" then v
  else if strStarts v "asset-v1:" || strStarts v "static/" then
    FASTAPI_PUBLIC_BASE_URL ++ ("/openedx-static" ++ v)
  else
    FASTAPI_PUBLIC_BASE_URL ++
      ("/openedx-proxy" ++ v ++ (if strContains v "?" then "&" else "?") ++ "link_id=" ++ lid)

/-- Value-level body of `add_link_id_to_action` (identical in GET, POST and the
dashboard handler, lines 1258-1263, 1819-1824, 515-520). -/
def addLinkIdToActionVal (lid v : String) : String :=
  if strContains v "?" || strStarts v "http" then v
  else
    FASTAPI_PUBLIC_BASE_URL ++
      ("/openedx-proxy" ++ v ++ (if strContains v "?" then "&" else "?") ++ "link_id=" ++ lid)

/-- Value-level body of `replace_src` / `replace_src_post` (lines 1284-1288,
1829-1833). -/
def replaceSrcVal (v : String) : String :=
  if strStarts v "http" then v
  else FASTAPI_PUBLIC_BASE_URL ++ ("/openedx-static" ++ v)

/-- Regex-plus-helper semantics at the value level: the `href="(/[^"]*)"`
pattern only fires on values starting with `/`. -/
def hrefPassNav (lid v : String) : String :=
  if strStarts v "/" then addLinkIdToHrefVal lid v else v

/-- Same for the `action` attribute regex. -/
def actionPass (lid v : String) : String :=
  if strStarts v "/" then addLinkIdToActionVal lid v else v

/-- Same for the `src` attribute regex. -/
def srcPassNav (v : String) : String :=
  if strStarts v "/" then replaceSrcVal v else v

/-- Value-level body of `add_link_id_to_href_dash` in `dashboard_proxy`
(lines 502-513).  `match.group(0)` is the matched text `href="v"`, so the
`FASTAPI_PUBLIC_BASE_URL in match.group(0)` guard tests containment in that
rendered attribute. -/
def addLinkIdToHrefDashVal (lid v : String) : String :=
  if strContains v "?" || strStarts v "http" ||
      strContains ("href=\"" ++ v ++ "\"") FASTAPI_PUBLIC_BASE_URL then v
  else if strStarts v "asset-v1:" || strStarts v "static/" then
    FASTAPI_PUBLIC_BASE_URL ++ ("/openedx-static" ++ v)
  else if strStarts v "/learner-dashboard/" || strStarts v "/authn/" then v
  else
    FASTAPI_PUBLIC_BASE_URL ++
      ("/openedx-proxy" ++ v ++ (if strContains v "?" then "&" else "?") ++ "link_id=" ++ lid)

/-- Value-level body of `replace_src_dash` in `dashboard_proxy` (lines 528-535). -/
def replaceSrcDashVal (v : String) : String :=
  if strStarts v "http" || strContains ("src=\"" ++ v ++ "\"") FASTAPI_PUBLIC_BASE_URL then v
  else if strStarts v "/learner-dashboard/" || strStarts v "/authn/" then v
  else FASTAPI_PUBLIC_BASE_URL ++ ("/openedx-static" ++ v)

/-- Guarded dashboard href pass. -/
def hrefPassDash (lid v : String) : String :=
  if strStarts v "/" then addLinkIdToHrefDashVal lid v else v

/-- Guarded dashboard src pass. -/
def srcPassDash (v : String) : String :=
  if strStarts v "/" then replaceSrcDashVal v else v

/-! ## Token view of an HTML body.

A body is a sequence of literal text pieces and well-formed `href`/`action`/
`src` attributes (whose values contain no double quote); this is exactly the
decomposition the three attribute regexes induce on a page.  The rewrite maps
each attribute value through the corresponding pass. -/

/-- Tokenized HTML: attribute tokens are the regex-matchable attributes. -/
inductive HtmlTok where
  | text (s : String)
  | hrefAttr (v : String)
  | actionAttr (v : String)
  | srcAttr (v : String)
deriving DecidableEq, Repr

/-- One application of the navigation-proxy attribute rewrite (the three
`re.sub` calls at lines 1280-1289 seen at token level). -/
def rewriteToks (lid : String) (toks : List HtmlTok) : List HtmlTok :=
  toks.map fun t =>
    match t with
    | .text s => .text s
    | .hrefAttr v => .hrefAttr (hrefPassNav lid v)
    | .actionAttr v => .actionAttr (actionPass lid v)
    | .srcAttr v => .srcAttr (srcPassNav v)

/-! ## String-level regex scanners.

`subAttrGo` implements `re.sub(r'attr="(/[^"]*)"', rep, s)`: scan left to
right; at a match emit the replacement text and continue after the closing
quote; at a failed position emit one character.  `subLitCapGo` implements
`re.sub(re.escape(lit) + r'([^"\s\x27<>]?*)', rep, s)` for the micro-frontend
origin substitutions.  Both are fuel-indexed by the input length. -/

/-- Scanner for the attribute regexes; `rep` maps the captured value (which
starts with `/`) to the full replacement text. -/
def subAttrGo (attr : List Char) (rep : List Char → List Char) :
    Nat → List Char → List Char
  | 0, l => l
  | _ + 1, [] => []
  | fuel + 1, c :: rest =>
    if attr.isPrefixOf (c :: rest) then
      match (c :: rest).drop attr.length with
      | '/' :: tail =>
        let run := tail.takeWhile (fun d => d != '"')
        match tail.drop run.length with
        | '"' :: tail2 => rep ('/' :: run) ++ subAttrGo attr rep fuel tail2
        | _ => c :: subAttrGo attr rep fuel rest
      | _ => c :: subAttrGo attr rep fuel rest
    else c :: subAttrGo attr rep fuel rest

/-- Entry point for the attribute scanners. -/
def subAttr (attr : String) (rep : List Char → List Char) (l : List Char) : List Char :=
  subAttrGo attr.data rep l.length l

/-- Characters excluded by the `[^"\s\x27<>]` class of the MFE regexes. -/
def mfeBad : List Char :=
  ['"', ' ', '\t', '\n', '\r', '\x0b', '\x0c', Char.ofNat 39, '<', '>']

/-- Scanner for literal-plus-captured-run regexes (the MFE substitutions).
`allowEmpty` distinguishes a `*` capture from a `+` capture. -/
def subLitCapGo (lit bad : List Char) (allowEmpty : Bool)
    (rep : List Char → List Char) : Nat → List Char → List Char
  | 0, l => l
  | _ + 1, [] => []
  | fuel + 1, c :: rest =>
    if lit.isPrefixOf (c :: rest) && !lit.isEmpty then
      let cap := ((c :: rest).drop lit.length).takeWhile (fun d => !bad.contains d)
      if cap.isEmpty && !allowEmpty then c :: subLitCapGo lit bad allowEmpty rep fuel rest
      else rep cap ++ subLitCapGo lit bad allowEmpty rep fuel
            (((c :: rest).drop lit.length).drop cap.length)
    else c :: subLitCapGo lit bad allowEmpty rep fuel rest

/-- Entry point for the literal-capture scanners. -/
def subLitCap (lit : String) (allowEmpty : Bool) (rep : List Char → List Char)
    (l : List Char) : List Char :=
  subLitCapGo lit.data mfeBad allowEmpty rep l.length l

/-- Replacement for the `LEARNING_MFE_URL/course/(...)` substitution
(lines 1225-1229 and 1786-1790). -/
def mfeCourseRep (lid : String) (g : List Char) : List Char :=
  (FASTAPI_PUBLIC_BASE_URL ++ ("/openedx-proxy/courses/" ++ String.mk g ++
    "/courseware?link_id=" ++ lid)).data

/-- Replacement for the remaining MFE-origin substitutions, which drop the
captured run (lines 1230-1245 and 1791-1806). -/
def mfeDashRep (lid : String) (_g : List Char) : List Char :=
  (FASTAPI_PUBLIC_BASE_URL ++ ("/openedx-proxy/dashboard?link_id=" ++ lid)).data

/-- Full-match replacement for the href regex. -/
def hrefRep (lid : String) (g : List Char) : List Char :=
  ("href=\"" ++ addLinkIdToHrefVal lid (String.mk g) ++ "\"").data

/-- Full-match replacement for the action regex. -/
def actionRep (lid : String) (g : List Char) : List Char :=
  ("action=\"" ++ addLinkIdToActionVal lid (String.mk g) ++ "\"").data

/-- Full-match replacement for the src regex. -/
def srcRep (g : List Char) : List Char :=
  ("src=\"" ++ replaceSrcVal (String.mk g) ++ "\"").data

/-- The navigation-proxy HTML rewrite pipeline (GET lines 1219-1293, POST
lines 1780-1837): MFE-origin substitutions, attribute rewrites, base tag. -/
def rewriteNavHtml (lid content : String) : String :=
  let c1 := subLitCap (LEARNING_MFE_URL ++ "/course/") false (mfeCourseRep lid) content.data
  let c2 := subLitCap LEARNING_MFE_URL true (mfeDashRep lid) c1
  let c3 := subLitCap "http://localhost:2000" true (mfeDashRep lid) c2
  let c4 := subLitCap "https://localhost:2000" true (mfeDashRep lid) c3
  let c5 := subAttr "href=\"" (hrefRep lid) c4
  let c6 := subAttr "action=\"" (actionRep lid) c5
  let c7 := subAttr "src=\"" srcRep c6
  let s7 := String.mk c7
  if strContains s7 "<head>" then
    strReplaceAll s7 "<head>" ("<head><base href=\"" ++ OPENEDX_API_BASE ++ "/\">")
  else s7

/-! ## URL parsing helpers used by the redirect interception -/

/-- Models `urllib.parse.urlparse(location).path` for the URL shapes the proxy
intercepts (`scheme://host[/path][?query][#fragment]`, or a relative
reference). -/
def urlparsePath (location : String) : String :=
  let rest :=
    if strContains location "://" then
      String.mk ((afterFirstStr location "://").data.dropWhile (fun c => c != '/'))
    else location
  pySplit0 (pySplit0 rest "#") "?"

/-- Models `re.search(r'/course/([^/]+)', s)` returning group 1: leftmost
occurrence of `/course/` followed by at least one non-slash character; the
group is the maximal non-slash run. -/
def courseSearch : List Char → Option (List Char)
  | [] => none
  | c :: rest =>
    if ("/course/".data).isPrefixOf (c :: rest) then
      let grp := ((c :: rest).drop 8).takeWhile (fun d => d != '/')
      if grp.isEmpty then courseSearch rest else some grp
    else courseSearch rest

/-- String wrapper for `courseSearch`. -/
def reSearchCourse (s : String) : Option String :=
  (courseSearch s.data).map (fun l => String.mk l)

/-- Append `link_id` to a location with the separator the code picks
(`&` when a `?` is already present, else `?`). -/
def appendLinkId (loc lid : String) : String :=
  if strContains loc "?" then loc ++ ("&link_id=" ++ lid)
  else loc ++ ("?link_id=" ++ lid)

/-! ## Upstream fetch and response models -/

/-- The observable parts of an upstream `requests` response. -/
structure UpstreamResp where
  status : Nat
  location : String
  contentTypeResp : String
  body : String
  cookies : List (String × String)
deriving DecidableEq, Repr

/-- Outcome of the single outbound call a handler makes; the exception
classes of `requests` become constructors (each carrying `str(e)`). -/
inductive FetchOutcome where
  | ok (r : UpstreamResp)
  | timeout (msg : String)
  | connError (msg : String)
  | reqError (msg : String)
deriving DecidableEq, Repr

/-- Response the proxy hands back to the browser.  `jsonDetail` is a
`JSONResponse({"detail": d})`, `httpError` a raised `HTTPException`. -/
inductive ProxyResp where
  | html (status : Nat) (body : String)
  | redirect (status : Nat) (location : String)
  | plainText (status : Nat) (body : String)
  | jsonBody (status : Nat) (body : String)
  | jsonDetail (status : Nat) (detail : String)
  | passthrough (status : Nat) (mediaType : String) (body : String)
  | httpError (status : Nat) (detail : String)
deriving DecidableEq, Repr

/-- Status code of a proxy response. -/
def ProxyResp.statusOf : ProxyResp → Nat
  | .html s _ => s
  | .redirect s _ => s
  | .plainText s _ => s
  | .jsonBody s _ => s
  | .jsonDetail s _ => s
  | .passthrough s _ _ => s
  | .httpError s _ => s

/-- The HTML document the handlers synthesize when they break a courseware
redirect loop by embedding the Learning MFE in an iframe (GET lines
1158-1173, POST lines 1644-1659; the two f-strings are identical). -/
def courseIframeHtml (mfeUrl : String) : String :=
  "\n<!DOCTYPE html>\n<html>\n<head>\n    <meta charset=\"utf-8\">\n    <title>Course Content</title>\n    <style>\n        body, html \x7b margin: 0; padding: 0; height: 100%; overflow: hidden; \x7d\n        iframe \x7b width: 100%; height: 100vh; border: none; \x7d\n    </style>\n</head>\n<body>\n    <iframe src=\"" ++ mfeUrl ++
  "\" allow=\"fullscreen\" allowfullscreen></iframe>\n</body>\n</html>\n"

/-- What a handler does with an upstream redirect: either synthesize the
iframe page for a course id, or redirect the browser to a new location. -/
inductive RedirectAction where
  | iframe (courseId : String)
  | goto (location : String)
deriving DecidableEq, Repr

/-- Redirect interception of the GET handler (lines 1125-1213).  The inner
`if not course_id:` re-extraction at lines 1149-1152 is unreachable (a
`[^/]+` group is never empty) and is represented by the `cid` emptiness
test. -/
def getRedirectAction (path lid location : String) : RedirectAction :=
  if strContains location LEARNING_MFE_URL || strContains location "localhost:2000" ||
      strContains location ":2000" then
    let mfePath := urlparsePath location
    let isCoursewareRequest := strContains (strToLower path) "/courseware"
    if isCoursewareRequest then
      if strContains mfePath "/course/" then
        match reSearchCourse mfePath with
        | some cid =>
          if !cid.data.isEmpty then .iframe cid
          else .goto (appendLinkId (FASTAPI_PUBLIC_BASE_URL ++ "/openedx-proxy/dashboard") lid)
        | none => .goto (appendLinkId (FASTAPI_PUBLIC_BASE_URL ++ "/openedx-proxy/dashboard") lid)
      else .goto (appendLinkId (FASTAPI_PUBLIC_BASE_URL ++ "/openedx-proxy/dashboard") lid)
    else
      if strContains mfePath "/course/" then
        match reSearchCourse mfePath with
        | some cid =>
          .goto (appendLinkId
            (FASTAPI_PUBLIC_BASE_URL ++ ("/openedx-proxy/courses/" ++ cid ++ "/about")) lid)
        | none => .goto (appendLinkId (FASTAPI_PUBLIC_BASE_URL ++ "/openedx-proxy/dashboard") lid)
      else .goto (appendLinkId (FASTAPI_PUBLIC_BASE_URL ++ "/openedx-proxy/dashboard") lid)
  else if strStarts location OPENEDX_API_BASE then
    .goto (appendLinkId
      (strReplaceAll location OPENEDX_API_BASE (FASTAPI_PUBLIC_BASE_URL ++ "/openedx-proxy")) lid)
  else if strStarts location "/" && !strStarts location "/openedx-proxy/" then
    .goto (appendLinkId (FASTAPI_PUBLIC_BASE_URL ++ ("/openedx-proxy" ++ location)) lid)
  else .goto location

/-- Redirect interception of the POST handler (lines 1618-1693); same logic
with the courseware test nested inside the course-id match. -/
def postRedirectAction (path lid location : String) : RedirectAction :=
  if strContains location LEARNING_MFE_URL || strContains location "localhost:2000" ||
      strContains location ":2000" then
    let mfePath := urlparsePath location
    let isCoursewareRequest := strContains (strToLower path) "/courseware"
    if strContains mfePath "/course/" then
      match reSearchCourse mfePath with
      | some cid =>
        if isCoursewareRequest then .iframe cid
        else
          .goto (appendLinkId
            (FASTAPI_PUBLIC_BASE_URL ++ ("/openedx-proxy/courses/" ++ cid ++ "/about")) lid)
      | none => .goto (appendLinkId (FASTAPI_PUBLIC_BASE_URL ++ "/openedx-proxy/dashboard") lid)
    else .goto (appendLinkId (FASTAPI_PUBLIC_BASE_URL ++ "/openedx-proxy/dashboard") lid)
  else if strStarts location OPENEDX_API_BASE then
    .goto (appendLinkId
      (strReplaceAll location OPENEDX_API_BASE (FASTAPI_PUBLIC_BASE_URL ++ "/openedx-proxy")) lid)
  else if strStarts location "/" && !strStarts location "/openedx-proxy/" then
    .goto (appendLinkId (FASTAPI_PUBLIC_BASE_URL ++ ("/openedx-proxy" ++ location)) lid)
  else .goto location

/-! ## Upstream URL construction (C10) -/

/-- GET navigation proxy URL building (lines 1108-1113): the inbound query
string, `link_id` included, is appended unchanged. -/
def getUpstreamUrl (path : String) (qp : List (String × String)) : String :=
  OPENEDX_API_BASE ++ ("/" ++ path) ++
    (if qp.isEmpty then "" else "?" ++ renderQuery qp)

/-- POST handler query filtering (line 1376): drop `link_id`, keep the rest. -/
def postQueryPairs (qp : List (String × String)) : List (String × String) :=
  qp.filter (fun p => p.1 != "link_id")

/-- POST navigation proxy URL building (lines 1372-1379). -/
def postUpstreamUrl (path : String) (qp : List (String × String)) : String :=
  OPENEDX_API_BASE ++ ("/" ++ path) ++
    (if (postQueryPairs qp).isEmpty then "" else "?" ++ renderQuery (postQueryPairs qp))

/-! ## CSRF extraction from a multipart body (POST handler lines 1443-1456).

The code runs `re.search(r'name="csrfmiddlewaretoken"\s*\r?\n\r?\n([^\r\n]+)',
body)` and strips the captured group.  `dnlSearch` reproduces the greedy
backtracking of the `\s*` prefix: it first tries to extend the whitespace run
(deeper recursion) and falls back to matching the two line breaks at the
current position. -/

/-- Match the regex tail `\s*\r?\n\r?\n([^\r\n]+)` against `t`, returning the
captured group. -/
def dnlSearch : List Char → Option (List Char)
  | [] => none
  | c :: rest =>
    let deeper := if isPySpace c then dnlSearch rest else none
    match deeper with
    | some g => some g
    | none =>
      match c :: rest with
      | '\r' :: '\n' :: r1 | '\n' :: r1 =>
        match r1 with
        | '\r' :: '\n' :: r2 | '\n' :: r2 =>
          let grp := r2.takeWhile (fun d => d != '\r' && d != '\n')
          if grp.isEmpty then none else some grp
        | _ => none
      | _ => none

/-- Literal part of the CSRF regex. -/
def csrfLit : List Char := ("name=\"csrfmiddlewaretoken\"").data

/-- Leftmost-match search for the whole CSRF regex. -/
def csrfScan : List Char → Option (List Char)
  | [] => none
  | c :: rest =>
    if csrfLit.isPrefixOf (c :: rest) then
      match dnlSearch ((c :: rest).drop csrfLit.length) with
      | some g => some g
      | none => csrfScan rest
    else csrfScan rest

/-- `csrf_match.group(1).strip()` when the regex matches (lines 1446-1448). -/
def extractCsrfMultipart (rawBody : String) : Option String :=
  (csrfScan rawBody.data).map (fun g => pyStrip (String.mk g))

/-! ## Outbound request the POST handler sends upstream (lines 1381-1506).

The URL-encoded branch receives the framework-parsed form as an association
list (FastAPI parses the body before the handler code sees it); the JSON /
fallback branches do not extract a body token on their main path and are
represented by the final case. -/

/-- Cookie jar and headers of the outbound `session.post` call. -/
structure Outbound where
  cookies : List (String × String)
  headers : List (String × String)
deriving DecidableEq, Repr

/-- Build the outbound cookies/headers exactly as lines 1381-1506 do:
stored session cookie under both names, inbound CSRF token from headers or
cookies, then the body-derived CSRF token overriding both the cookie and the
header when present. -/
def postOutbound (headers cookies : List (String × String)) (contentType rawBody : String)
    (form : List (String × String)) (referer path storedToken : String) : Outbound :=
  let jar0 := setStr (setStr [] "lms_sessionid" storedToken) "sessionid" storedToken
  let csrf := pyOr (lookupStr headers "x-csrftoken")
    (pyOr (lookupStr headers "x-csrf-token")
      (pyOr (lookupStr cookies "csrftoken") (lookupStr cookies "edxcsrftoken")))
  let jar1 :=
    if pyTruthy csrf then setStr (setStr jar0 "csrftoken" (csrf.getD "")) "edxcsrftoken" (csrf.getD "")
    else jar0
  let hdr0 : List (String × String) :=
    [("Referer", if pyTruthy (some referer) then referer else OPENEDX_API_BASE ++ ("/" ++ path)),
     ("User-Agent", (lookupStr headers "user-agent").getD "fastapi-edx-proxy/1.0"),
     ("X-Requested-With", (lookupStr headers "x-requested-with").getD "XMLHttpRequest")]
  let hdr1 :=
    if pyTruthy csrf then setStr (setStr hdr0 "X-CSRFToken" (csrf.getD "")) "X-CSRF-Token" (csrf.getD "")
    else hdr0
  let hdr2 :=
    if !contentType.data.isEmpty && !strContains contentType "multipart/form-data" then
      setStr hdr1 "Content-Type" contentType
    else hdr1
  if strContains contentType "multipart/form-data" then
    match extractCsrfMultipart rawBody with
    | some t =>
      { cookies := setStr (setStr jar1 "csrftoken" t) "edxcsrftoken" t
        headers := setStr (setStr (setStr hdr2 "X-CSRFToken" t) "X-CSRF-Token" t)
          "Content-Type" contentType }
    | none => { cookies := jar1, headers := setStr hdr2 "Content-Type" contentType }
  else if strContains contentType "application/x-www-form-urlencoded" then
    match lookupStr form "csrfmiddlewaretoken" with
    | some t =>
      if !t.data.isEmpty then
        { cookies := setStr (setStr jar1 "csrftoken" t) "edxcsrftoken" t
          headers := setStr (setStr hdr2 "X-CSRFToken" t) "X-CSRF-Token" t }
      else { cookies := jar1, headers := hdr2 }
    | none => { cookies := jar1, headers := hdr2 }
  else { cookies := jar1, headers := setStr hdr2 "Content-Type" "application/json" }

/-! ## Error-body constants (C8, C9) -/

/-- Body of the static proxy timeout response (lines 1000-1011). -/
def staticTimeoutBody : String := "Request timeout"

/-- Body of the static proxy connection-error response (lines 1012-1023). -/
def staticConnBody : String := "Connection error"

/-- Detail of the outer POST-proxy timeout handler (lines 1865-1875).  For
upstream-call timeouts this handler is unreachable: the inner form-handling
`except` at line 1555 intercepts them first. -/
def postTimeoutDetail : String := "Request timeout"

/-- Detail of the outer POST-proxy connection-error handler (lines
1876-1886); likewise unreachable for upstream-call failures. -/
def postConnDetail : String := "Connection error"

/-! ## Handlers -/

/-- Static asset proxy `GET /openedx-static/{path}` (lines 897-1047), seen at
the fetch-outcome level: the upstream status and body pass through, the
exception classes map to 504/502/500.  The URL routing by path prefix (897-938)
does not affect any claim and is omitted. -/
def openedxStaticProxy (_path : String) (_qp : List (String × String))
    (fetch : FetchOutcome) : ProxyResp :=
  match fetch with
  | .ok r =>
    .passthrough r.status
      (if r.contentTypeResp.data.isEmpty then "application/octet-stream" else r.contentTypeResp)
      r.body
  | .timeout _ => .plainText 504 staticTimeoutBody
  | .connError _ => .plainText 502 staticConnBody
  | .reqError m => .plainText 500 ("Request failed: " ++ m)

/-- Response side of the GET navigation proxy `GET /openedx-proxy/{path}`
(lines 1050-1307): static-path short circuit, link resolution, db lookups,
then redirect interception / HTML rewriting / error classification.  A
`requests.RequestException` of any kind (timeouts included) is mapped to a
500 `HTTPException` (lines 1306-1307). -/
def openedxProxyGetResp (path referer : String) (cookies qp : List (String × String))
    (db : Db) (fetch : FetchOutcome) : ProxyResp :=
  if strStarts path "static/" || strStarts path "asset-v1:" then
    .redirect 307 (FASTAPI_PUBLIC_BASE_URL ++ ("/openedx-static/" ++ path))
  else
    match resolveLinkId referer cookies qp db with
    | none => .httpError 400 "Invalid navigation request - link_id not found"
    | some lid =>
      if lid.data.isEmpty then .httpError 400 "Invalid navigation request - link_id not found"
      else
        match findLink db lid with
        | none => .httpError 404 "Invalid link"
        | some ul =>
          match findToken db ul.email with
          | none => .httpError 400 "No valid session found"
          | some tok =>
            if tok.access_token.data.isEmpty then .httpError 400 "No valid session found"
            else
              match fetch with
              | .timeout m => .httpError 500 ("Proxy request failed: " ++ m)
              | .connError m => .httpError 500 ("Proxy request failed: " ++ m)
              | .reqError m => .httpError 500 ("Proxy request failed: " ++ m)
              | .ok r =>
                if ([301, 302, 303, 307, 308] : List Nat).contains r.status then
                  if !r.location.data.isEmpty then
                    match getRedirectAction path lid r.location with
                    | .iframe cid =>
                      .html 200 (courseIframeHtml (LEARNING_MFE_URL ++ ("/course/" ++ cid)))
                    | .goto loc => .redirect r.status loc
                  else .httpError r.status "Open edX request failed"
                else if r.status == 200 then .html 200 (rewriteNavHtml lid r.body)
                else .httpError r.status "Open edX request failed"

/-- Result of a handler: the browser response plus the database state after
the request (the GET and POST navigation handlers never write the db). -/
structure HandlerResult where
  resp : ProxyResp
  db : Db
deriving DecidableEq, Repr

/-- GET navigation proxy with its (unchanged) database state. -/
def openedxProxyGet (path referer : String) (cookies qp : List (String × String))
    (db : Db) (fetch : FetchOutcome) : HandlerResult :=
  { resp := openedxProxyGetResp path referer cookies qp db fetch, db := db }

/-- Response classification of the POST handler for non-redirect upstream
responses (lines 1699-1863): the bare-path enrollment branch first, then the
JSON, HTML and passthrough branches. -/
def postBodyClassify (lid : String) (r : UpstreamResp) : ProxyResp :=
  let t := pyStrip r.body
  if r.status == 200 && !t.data.isEmpty && strStarts t "/" &&
      decide (t.length < 500) && !strStarts t "<" && !strContains t "\n" &&
      !strStarts t "/openedx-proxy/" && !strStarts t "http" then
    let proxyUrl := FASTAPI_PUBLIC_BASE_URL ++ ("/openedx-proxy" ++ t)
    .plainText 200 (appendLinkId proxyUrl lid)
  else if strContains r.contentTypeResp "application/json" then
    .jsonBody r.status r.body
  else if strContains r.contentTypeResp "text/html" then
    .html r.status (rewriteNavHtml lid r.body)
  else
    .passthrough r.status
      (if r.contentTypeResp.data.isEmpty then "application/octet-stream" else r.contentTypeResp)
      r.body

/-- Successful-fetch classification of the POST handler (lines 1617-1863):
redirect interception first (only when a Location header is present), then
the body classification. -/
def postClassify (path lid : String) (r : UpstreamResp) : ProxyResp :=
  if ([301, 302, 303, 307, 308] : List Nat).contains r.status then
    if !r.location.data.isEmpty then
      match postRedirectAction path lid r.location with
      | .iframe cid => .html 200 (courseIframeHtml (LEARNING_MFE_URL ++ ("/course/" ++ cid)))
      | .goto loc => .redirect r.status loc
    else postBodyClassify lid r
  else postBodyClassify lid r

/-- Response side of the POST navigation proxy `POST /openedx-proxy/{path}`
(lines 1324-1908): link resolution, db lookups, then outcome handling.
Every `session.post` sits inside the inner `try:` at line 1434, whose
`except Exception as form_error:` (line 1555) catches any upstream exception
(timeouts included), retries once with the raw request body (line 1579), and
on a second failure returns 500 with `"Error processing request: ..."` built
from the first exception (lines 1586-1596); a successful retry is classified
like any other response.  The outer `except` handlers at lines 1865-1908 are
therefore unreachable for upstream-call failures.  `fetch` is the first
upstream attempt and `retryFetch` the raw-body retry, consulted only when the
first attempt raised. -/
def openedxProxyPostResp (path referer : String)
    (cookies qp : List (String × String)) (db : Db) (fetch retryFetch : FetchOutcome) :
    ProxyResp :=
  match resolveLinkId referer cookies qp db with
  | none => .httpError 400 "Invalid request - link_id not found"
  | some lid =>
    if lid.data.isEmpty then .httpError 400 "Invalid request - link_id not found"
    else
      match findLink db lid with
      | none => .httpError 404 "Invalid link"
      | some ul =>
        match findToken db ul.email with
        | none => .httpError 400 "No valid session found"
        | some tok =>
          if tok.access_token.data.isEmpty then .httpError 400 "No valid session found"
          else
            match fetch with
            | .ok r => postClassify path lid r
            | .timeout m | .connError m | .reqError m =>
              match retryFetch with
              | .ok r => postClassify path lid r
              | .timeout _ | .connError _ | .reqError _ =>
                .jsonDetail 500 ("Error processing request: " ++ m)

/-- POST navigation proxy with its (unchanged) database state. -/
def openedxProxyPost (path referer : String) (cookies qp : List (String × String))
    (db : Db) (fetch retryFetch : FetchOutcome) : HandlerResult :=
  { resp := openedxProxyPostResp path referer cookies qp db fetch retryFetch, db := db }

/-! ## Dashboard proxy session rotation (C3, lines 388-394) -/

/-- Update the first `UserToken` row with the given email (the row SQLAlchemy
mutates through `user_token.access_token = new_session; db.commit()`). -/
def updateFirstTokenValue (tokens : List UserToken) (email v : String) : List UserToken :=
  match tokens with
  | [] => []
  | t :: rest =>
    if t.email == email then ({ t with access_token := v }) :: rest
    else t :: updateFirstTokenValue rest email v

/-- The cookie-rotation step of `dashboard_proxy` (lines 388-394): when the
upstream response carries a truthy `lms_sessionid` cookie different from the
stored value, the stored row is updated and committed. -/
def dashboardSessionRotate (db : Db) (email : String)
    (respCookies : List (String × String)) : Db :=
  match lookupStr respCookies "lms_sessionid" with
  | some a =>
    if !a.data.isEmpty then
      match findToken db email with
      | some tok =>
        if a != tok.access_token then { db with tokens := updateFirstTokenValue db.tokens email a }
        else db
      | none => db
    else db
  | none => db

/-! ## Auto-login failure body (C8, lines 2650-2662) -/

/-- Candidate password list tried by `access_link` (line 2092). -/
def common_passwords : List String :=
  ["password123", "Password123", "123456", "admin123", "test123", "user123", "demo123"]

/-- Password strategies tried by `auto_login_existing_user` (lines 2514-2523). -/
def password_strategies : List String := DEFAULT_USER_PASSWORD :: common_passwords

/-- Shape of the `HTTPException` detail raised when auto-login exhausts all
strategies (lines 2652-2662). -/
structure AutoLoginFailureDetail where
  error : String
  message : String
  tried_passwords : List String
  suggestions : List String
  manage_user_url : String
deriving DecidableEq, Repr

/-- The 400 error body of `auto_login_existing_user` when every password
strategy failed (lines 2652-2662).  Its `tried_passwords` field is the full
candidate list, default password included. -/
def autoLoginFailureDetail (email : String) : AutoLoginFailureDetail :=
  { error := "Auto-login failed"
    message := "Could not automatically login user \x27" ++ email ++
      "\x27 with any password strategy."
    tried_passwords := password_strategies
    suggestions :=
      ["Use POST /manage-existing-user to create alternative email",
       "Contact the Open edX administrator to reset the password",
       "Try with a completely different email address"]
    manage_user_url := FASTAPI_PUBLIC_BASE_URL ++ "/manage-existing-user" }

/-! ## Helper lemmas -/

/-- A nonempty string has a nonempty character list. -/
theorem data_isEmpty_false_of_ne {l : String} (h : l ≠ "") : l.data.isEmpty = false := by
  cases l with
  | mk d =>
    cases d with
    | nil => exact absurd (by decide) h
    | cons a t => rfl

/-- Anything the rewriter prefixes with the proxy base URL does not start
with a slash, so the attribute regexes never match it again. -/
theorem base_append_no_slash (x : String) :
    strStarts (FASTAPI_PUBLIC_BASE_URL ++ x) "/" = false := by
  unfold strStarts
  rw [String.data_append]
  have h : FASTAPI_PUBLIC_BASE_URL.data = 'h' :: "ttp://localhost:8000".data := by decide
  have h2 : "/".data = ['/'] := by decide
  rw [h, h2]
  simp [List.isPrefixOf]

/-- A value starting with a slash exposes its head character. -/
theorem strStarts_slash_cons {v : String} (h : strStarts v "/" = true) :
    ∃ t, v.data = '/' :: t := by
  unfold strStarts at h
  have h2 : "/".data = ['/'] := by decide
  rw [h2, List.isPrefixOf_iff_prefix] at h
  obtain ⟨t, ht⟩ := h
  exact ⟨t, ht.symm⟩

/-- A slash-initial value does not start with `asset-v1:`. -/
theorem slash_not_asset {v : String} (h : strStarts v "/" = true) :
    strStarts v "asset-v1:" = false := by
  obtain ⟨t, ht⟩ := strStarts_slash_cons h
  unfold strStarts
  rw [ht]
  have h2 : "asset-v1:".data = 'a' :: "sset-v1:".data := by decide
  rw [h2]
  simp [List.isPrefixOf]

/-- A slash-initial value does not start with `static/`. -/
theorem slash_not_static {v : String} (h : strStarts v "/" = true) :
    strStarts v "static/" = false := by
  obtain ⟨t, ht⟩ := strStarts_slash_cons h
  unfold strStarts
  rw [ht]
  have h2 : "static/".data = 's' :: "tatic/".data := by decide
  rw [h2]
  simp [List.isPrefixOf]

/-- A slash-initial value does not start with `http`. -/
theorem slash_not_http {v : String} (h : strStarts v "/" = true) :
    strStarts v "http" = false := by
  obtain ⟨t, ht⟩ := strStarts_slash_cons h
  unfold strStarts
  rw [ht]
  have h2 : "http".data = 'h' :: "ttp".data := by decide
  rw [h2]
  simp [List.isPrefixOf]

/-- Idempotence of the guarded navigation href pass. -/
theorem hrefPassNav_idem (lid v : String) :
    hrefPassNav lid (hrefPassNav lid v) = hrefPassNav lid v := by
  unfold hrefPassNav addLinkIdToHrefVal
  cases h0 : strStarts v "/" with
  | false => simp [h0]
  | true =>
    simp only [h0, if_true]
    cases h1 : (strContains v "?" || strStarts v "http") with
    | true => simp [h0, h1]
    | false =>
      cases h2 : (strStarts v "asset-v1:" || strStarts v "static/") with
      | true => simp [h1, h2, base_append_no_slash]
      | false => simp [h1, h2, base_append_no_slash]

/-- Idempotence of the guarded action pass. -/
theorem actionPass_idem (lid v : String) :
    actionPass lid (actionPass lid v) = actionPass lid v := by
  unfold actionPass addLinkIdToActionVal
  cases h0 : strStarts v "/" with
  | false => simp [h0]
  | true =>
    simp only [h0, if_true]
    cases h1 : (strContains v "?" || strStarts v "http") with
    | true => simp [h0, h1]
    | false => simp [h1, base_append_no_slash]

/-- Idempotence of the guarded navigation src pass. -/
theorem srcPassNav_idem (v : String) : srcPassNav (srcPassNav v) = srcPassNav v := by
  unfold srcPassNav replaceSrcVal
  cases h0 : strStarts v "/" with
  | false => simp [h0]
  | true =>
    simp only [h0, if_true]
    cases h1 : strStarts v "http" with
    | true => simp [h0, h1]
    | false => simp [h1, base_append_no_slash]

/-- Idempotence of the guarded dashboard href pass. -/
theorem hrefPassDash_idem (lid v : String) :
    hrefPassDash lid (hrefPassDash lid v) = hrefPassDash lid v := by
  unfold hrefPassDash addLinkIdToHrefDashVal
  cases h0 : strStarts v "/" with
  | false => simp [h0]
  | true =>
    simp only [h0, if_true]
    cases h1 : (strContains v "?" || strStarts v "http" ||
        strContains ("href=\"" ++ v ++ "\"") FASTAPI_PUBLIC_BASE_URL) with
    | true => simp [h0, h1]
    | false =>
      cases h2 : (strStarts v "asset-v1:" || strStarts v "static/") with
      | true => simp [h1, h2, base_append_no_slash]
      | false =>
        cases h3 : (strStarts v "/learner-dashboard/" || strStarts v "/authn/") with
        | true => simp [h0, h1, h2, h3]
        | false => simp [h1, h2, h3, base_append_no_slash]

/-- Idempotence of the guarded dashboard src pass. -/
theorem srcPassDash_idem (v : String) : srcPassDash (srcPassDash v) = srcPassDash v := by
  unfold srcPassDash replaceSrcDashVal
  cases h0 : strStarts v "/" with
  | false => simp [h0]
  | true =>
    simp only [h0, if_true]
    cases h1 : (strStarts v "http" ||
        strContains ("src=\"" ++ v ++ "\"") FASTAPI_PUBLIC_BASE_URL) with
    | true => simp [h0, h1]
    | false =>
      cases h2 : (strStarts v "/learner-dashboard/" || strStarts v "/authn/") with
      | true => simp [h0, h1, h2]
      | false => simp [h1, h2, base_append_no_slash]

/-! ## Claim theorems -/

/-- Claim C1: on every navigation-proxy request (the GET and POST handlers run
the same resolution code), when the Referer header yields a truthy `link_id`
by one of the referer-parsing patterns, the resolved `link_id` is the
referer-derived one even when the `edx_link_id` tracking cookie is present
with a different value; and the cookie, query-parameter and reverse-session
strategies are consulted only when every earlier strategy yields nothing. -/
theorem c1_link_resolution_priority :
    (∀ referer cookies qp db l c,
        extractLinkIdFromReferer referer = some l → l ≠ "" →
        lookupStr cookies "edx_link_id" = some c → c ≠ l →
        resolveLinkId referer cookies qp db = some l)
  ∧ (∀ referer cookies qp db, pyTruthy (extractLinkIdFromReferer referer) = false →
        resolveLinkId referer cookies qp db = resolveFromCookie cookies qp db)
  ∧ (∀ cookies qp db, pyTruthy (lookupStr cookies "edx_link_id") = false →
        resolveFromCookie cookies qp db = resolveFromQuery qp cookies db)
  ∧ (∀ cookies qp db, pyTruthy (lookupStr qp "link_id") = false →
        resolveFromQuery qp cookies db = resolveFromSession cookies db) := by
  refine ⟨?_, ?_, ?_, ?_⟩
  · intro referer cookies qp db l c h1 h2 _h3 _h4
    unfold resolveLinkId
    rw [h1]
    simp [pyTruthy, data_isEmpty_false_of_ne h2]
  · intro referer cookies qp db h
    unfold resolveLinkId
    simp [h]
  · intro cookies qp db h
    unfold resolveFromCookie
    simp [h]
  · intro cookies qp db h
    unfold resolveFromQuery
    simp [h]

/-- Witness for C1 at a concrete request: the referer names `L1`, the tracking
cookie names `L2`, and resolution returns the referer-derived `L1`. -/
theorem c1_witness :
    extractLinkIdFromReferer "http://localhost:8000/dashboard-proxy/L1?x=1" = some "L1"
  ∧ resolveLinkId "http://localhost:8000/dashboard-proxy/L1?x=1"
      [("edx_link_id", "L2")] [] { links := [], tokens := [] } = some "L1" :=
  ⟨by decide,
   c1_link_resolution_priority.1 _ _ _ _ "L1" "L2" (by decide) (by decide) (by decide) (by decide)⟩

/-- Claim C2: re-applying the navigation-proxy content rewrite to its own
output leaves every already-rewritten `href`/`action`/`src` attribute value
unchanged (no attribute value ever acquires the proxy base URL twice).  The
statement combines the guarded per-attribute passes of the GET/POST handlers,
the corresponding passes of `dashboard_proxy` (whose action helper is the same
`addLinkIdToActionVal`), and the rewrite over a tokenized HTML body. -/
theorem c2_rewrite_idempotent_on_attributes :
    (∀ lid v, hrefPassNav lid (hrefPassNav lid v) = hrefPassNav lid v)
  ∧ (∀ lid v, actionPass lid (actionPass lid v) = actionPass lid v)
  ∧ (∀ v, srcPassNav (srcPassNav v) = srcPassNav v)
  ∧ (∀ lid v, hrefPassDash lid (hrefPassDash lid v) = hrefPassDash lid v)
  ∧ (∀ v, srcPassDash (srcPassDash v) = srcPassDash v)
  ∧ (∀ lid toks, rewriteToks lid (rewriteToks lid toks) = rewriteToks lid toks) := by
  refine ⟨hrefPassNav_idem, actionPass_idem, srcPassNav_idem, hrefPassDash_idem,
    srcPassDash_idem, ?_⟩
  intro lid toks
  induction toks with
  | nil => rfl
  | cons t rest ih =>
    cases t with
    | text s => simpa [rewriteToks] using ih
    | hrefAttr v => simpa [rewriteToks, hrefPassNav_idem] using ih
    | actionAttr v => simpa [rewriteToks, actionPass_idem] using ih
    | srcAttr v => simpa [rewriteToks, srcPassNav_idem] using ih

/-- Updating the first matching token row is visible to the `first()` query. -/
theorem find?_updateFirstTokenValue (tokens : List UserToken) (email v : String)
    (tok : UserToken) (h : tokens.find? (fun t => t.email == email) = some tok) :
    (updateFirstTokenValue tokens email v).find? (fun t => t.email == email) =
      some { tok with access_token := v } := by
  induction tokens with
  | nil => simp [List.find?] at h
  | cons a rest ih =>
    unfold updateFirstTokenValue
    cases ha : (a.email == email) with
    | true =>
      simp [List.find?_cons, ha] at h ⊢
      cases h
      simp [List.find?_cons, ha]
    | false =>
      simp [List.find?_cons, ha] at h ⊢
      exact ih h

/-- Claim C3 (amended): only `dashboard_proxy` persists a rotated
`lms_sessionid` cookie value; the GET and POST navigation-proxy handlers
forward upstream cookies to the browser but leave the stored `SessionRecord`
untouched on every path. -/
theorem c3_amended_rotation :
    (∀ db email respCookies tok a,
        findToken db email = some tok →
        lookupStr respCookies "lms_sessionid" = some a →
        a ≠ "" → a ≠ tok.access_token →
        findToken (dashboardSessionRotate db email respCookies) email =
          some { tok with access_token := a })
  ∧ (∀ path referer cookies qp db fetch,
        (openedxProxyGet path referer cookies qp db fetch).db = db)
  ∧ (∀ path referer cookies qp db fetch retryFetch,
        (openedxProxyPost path referer cookies qp db fetch retryFetch).db = db) := by
  refine ⟨?_, fun _ _ _ _ _ _ => rfl, fun _ _ _ _ _ _ _ => rfl⟩
  intro db email respCookies tok a h1 h2 h3 h4
  unfold dashboardSessionRotate
  rw [h2, h1]
  have hne : (a != tok.access_token) = true := by
    simp [bne_iff_ne, h4]
  simp only [data_isEmpty_false_of_ne h3, hne, Bool.not_false, if_true]
  exact find?_updateFirstTokenValue db.tokens email a tok h1

/-- Witness for the amended C3 at a concrete rotation. -/
theorem c3_witness :
    findToken
      (dashboardSessionRotate
        { links := [{ link_id := "L1", email := "a@x.com" }],
          tokens := [{ email := "a@x.com", access_token := "S1", password := "pw" }] }
        "a@x.com" [("lms_sessionid", "S2")]) "a@x.com" =
      some { email := "a@x.com", access_token := "S2", password := "pw" } :=
  c3_amended_rotation.1 _ "a@x.com" _
    { email := "a@x.com", access_token := "S1", password := "pw" } "S2"
    (by decide) (by decide) (by decide) (by decide)

/-- Counterexample to C3 as stated: a GET navigation-proxy fetch whose
upstream response rotates the session cookie (`S2` differs from the stored
`S1`) leaves the stored record unchanged — the rotation is not persisted. -/
theorem c3_counterexample :
    (openedxProxyGet "dashboard" "http://localhost:8000/dashboard-proxy/L1" [] []
        { links := [{ link_id := "L1", email := "a@x.com" }],
          tokens := [{ email := "a@x.com", access_token := "S1", password := "pw" }] }
        (.ok { status := 302, location := "http://localhost:18000/account",
               contentTypeResp := "text/html", body := "",
               cookies := [("lms_sessionid", "S2")] })).db
      = { links := [{ link_id := "L1", email := "a@x.com" }],
          tokens := [{ email := "a@x.com", access_token := "S1", password := "pw" }] }
  ∧ lookupStr [("lms_sessionid", "S2")] "lms_sessionid" = some "S2"
  ∧ ("S2" : String) ≠ "S1" :=
  ⟨rfl, by decide, by decide⟩

/-- Claim C4: a navigation-proxy request whose own path contains the
courseware marker and whose upstream response is a 3xx redirect into the
Learning MFE origin with an extractable course id is answered with a 200 HTML
page embedding the Learning MFE course URL in an iframe, never with a
redirect response.  Both the GET and the POST handler are covered. -/
theorem c4_courseware_redirect_iframe :
    (∀ path referer cookies qp db lid ul tok r cid,
        strStarts path "static/" = false → strStarts path "asset-v1:" = false →
        resolveLinkId referer cookies qp db = some lid → lid ≠ "" →
        findLink db lid = some ul → findToken db ul.email = some tok →
        tok.access_token ≠ "" →
        ([301, 302, 303, 307, 308] : List Nat).contains r.status = true →
        r.location ≠ "" →
        strContains r.location LEARNING_MFE_URL = true →
        strContains (strToLower path) "/courseware" = true →
        strContains (urlparsePath r.location) "/course/" = true →
        reSearchCourse (urlparsePath r.location) = some cid → cid ≠ "" →
        (openedxProxyGet path referer cookies qp db (.ok r)).resp =
          .html 200 (courseIframeHtml (LEARNING_MFE_URL ++ ("/course/" ++ cid)))
        ∧ ∀ s loc, (openedxProxyGet path referer cookies qp db (.ok r)).resp ≠ .redirect s loc)
  ∧ (∀ path referer cookies qp db lid ul tok r cid retryFetch,
        resolveLinkId referer cookies qp db = some lid → lid ≠ "" →
        findLink db lid = some ul → findToken db ul.email = some tok →
        tok.access_token ≠ "" →
        ([301, 302, 303, 307, 308] : List Nat).contains r.status = true →
        r.location ≠ "" →
        strContains r.location LEARNING_MFE_URL = true →
        strContains (strToLower path) "/courseware" = true →
        strContains (urlparsePath r.location) "/course/" = true →
        reSearchCourse (urlparsePath r.location) = some cid →
        (openedxProxyPost path referer cookies qp db (.ok r) retryFetch).resp =
          .html 200 (courseIframeHtml (LEARNING_MFE_URL ++ ("/course/" ++ cid)))
        ∧ ∀ s loc,
          (openedxProxyPost path referer cookies qp db (.ok r) retryFetch).resp ≠
            .redirect s loc) := by
  constructor
  · intro path referer cookies qp db lid ul tok r cid hs1 hs2 hres hlid hfl hft htok hst hloc
      hmfe hcw hcp hcid hcne
    have hact : getRedirectAction path lid r.location = RedirectAction.iframe cid := by
      unfold getRedirectAction
      simp [hmfe, hcw, hcp, hcid, data_isEmpty_false_of_ne hcne]
    have hresp : (openedxProxyGet path referer cookies qp db (.ok r)).resp =
        .html 200 (courseIframeHtml (LEARNING_MFE_URL ++ ("/course/" ++ cid))) := by
      unfold openedxProxyGet openedxProxyGetResp
      simp [hs1, hs2, hres, data_isEmpty_false_of_ne hlid, hfl, hft,
        data_isEmpty_false_of_ne htok, hst, data_isEmpty_false_of_ne hloc, hact]
      intro h1 h2 h3 h4 h5
      exfalso
      simp at hst
      tauto
    exact ⟨hresp, by simp [hresp]⟩
  · intro path referer cookies qp db lid ul tok r cid retryFetch hres hlid hfl hft htok hst hloc
      hmfe hcw hcp hcid
    have hact : postRedirectAction path lid r.location = RedirectAction.iframe cid := by
      unfold postRedirectAction
      simp [hmfe, hcw, hcp, hcid]
    have hresp : (openedxProxyPost path referer cookies qp db (.ok r) retryFetch).resp =
        .html 200 (courseIframeHtml (LEARNING_MFE_URL ++ ("/course/" ++ cid))) := by
      unfold openedxProxyPost openedxProxyPostResp postClassify
      simp [hres, data_isEmpty_false_of_ne hlid, hfl, hft,
        data_isEmpty_false_of_ne htok, hst, data_isEmpty_false_of_ne hloc, hact]
      intro h1 h2 h3 h4 h5
      exfalso
      simp at hst
      tauto
    exact ⟨hresp, by simp [hresp]⟩

/-- Witness for C4: a GET courseware request redirected to the Learning MFE
course page is answered with the iframe page for course id `abc`. -/
theorem c4_witness :
    (openedxProxyGet "courses/c1/courseware" "http://localhost:8000/dashboard-proxy/L1" [] []
        { links := [{ link_id := "L1", email := "a@x.com" }],
          tokens := [{ email := "a@x.com", access_token := "S1", password := "pw" }] }
        (.ok { status := 302, location := "http://localhost:2000/course/abc/home",
               contentTypeResp := "", body := "", cookies := [] })).resp =
      .html 200 (courseIframeHtml (LEARNING_MFE_URL ++ ("/course/" ++ "abc"))) :=
  (c4_courseware_redirect_iframe.1 "courses/c1/courseware"
    "http://localhost:8000/dashboard-proxy/L1" [] []
    { links := [{ link_id := "L1", email := "a@x.com" }],
      tokens := [{ email := "a@x.com", access_token := "S1", password := "pw" }] }
    "L1" { link_id := "L1", email := "a@x.com" }
    { email := "a@x.com", access_token := "S1", password := "pw" }
    { status := 302, location := "http://localhost:2000/course/abc/home",
      contentTypeResp := "", body := "", cookies := [] }
    "abc" (by decide) (by decide) (by decide) (by decide) (by decide) (by decide) (by decide)
    (by decide) (by decide) (by decide) (by decide) (by decide) (by decide) (by decide)).1

/-- Counterexample to C5 as stated: an href path that already carries a query
string is left unchanged by the rewriter (it is not rewritten with `&`), so
the claimed output with the proxy route and `&link_id=` appended is not
produced. -/
theorem c5_counterexample :
    addLinkIdToHrefVal "L1" "/courses/abc?foo=1" = "/courses/abc?foo=1"
  ∧ addLinkIdToHrefVal "L1" "/courses/abc?foo=1" ≠
      FASTAPI_PUBLIC_BASE_URL ++ "/openedx-proxy/courses/abc?foo=1&link_id=L1"
  ∧ addLinkIdToActionVal "L1" "/submit?next=2" = "/submit?next=2" :=
  ⟨by decide, by decide, by decide⟩

/-- Claim C5 (amended): `href`/`action` attributes of the form `"/path"` with
no query string are rewritten to the navigation-proxy route with `?link_id=`
appended; paths that already carry a query string (like absolute URLs) are
skipped unchanged — the `&` separator branch of the code is unreachable. -/
theorem c5_amended_rewrite :
    ∀ lid v, strStarts v "/" = true →
      (strContains v "?" = true →
        addLinkIdToHrefVal lid v = v ∧ addLinkIdToActionVal lid v = v)
    ∧ (strContains v "?" = false →
        addLinkIdToHrefVal lid v =
          FASTAPI_PUBLIC_BASE_URL ++ ("/openedx-proxy" ++ v ++ "?" ++ "link_id=" ++ lid)
        ∧ addLinkIdToActionVal lid v =
          FASTAPI_PUBLIC_BASE_URL ++ ("/openedx-proxy" ++ v ++ "?" ++ "link_id=" ++ lid)) := by
  intro lid v hs
  constructor
  · intro hq
    unfold addLinkIdToHrefVal addLinkIdToActionVal
    simp [hq]
  · intro hq
    unfold addLinkIdToHrefVal addLinkIdToActionVal
    simp [hq, slash_not_http hs, slash_not_asset hs, slash_not_static hs]

/-- Witness for the amended C5: the spec scenario-1 link is produced with the
`?` separator. -/
theorem c5_witness :
    addLinkIdToHrefVal "L1" "/courses/abc" =
      FASTAPI_PUBLIC_BASE_URL ++ ("/openedx-proxy" ++ "/courses/abc" ++ "?" ++ "link_id=" ++ "L1") :=
  ((c5_amended_rewrite "L1" "/courses/abc" (by decide)).2 (by decide)).1

/-- Claim C6: a POST navigation-proxy request whose upstream answer is a 200
single-line bare path (shorter than 500 characters, not HTML, not already
proxy-relative, not an absolute URL) is answered with a 200 text/plain body
equal to the proxy base joined with `/openedx-proxy`, the upstream path and
`link_id` as a query parameter. -/
theorem c6_bare_path_response :
    ∀ path referer cookies qp db lid ul tok r retryFetch,
      resolveLinkId referer cookies qp db = some lid → lid ≠ "" →
      findLink db lid = some ul → findToken db ul.email = some tok →
      tok.access_token ≠ "" →
      r.status = 200 →
      pyStrip r.body ≠ "" →
      strStarts (pyStrip r.body) "/" = true →
      (pyStrip r.body).length < 500 →
      strStarts (pyStrip r.body) "<" = false →
      strContains (pyStrip r.body) "\n" = false →
      strStarts (pyStrip r.body) "/openedx-proxy/" = false →
      strStarts (pyStrip r.body) "http" = false →
      (openedxProxyPost path referer cookies qp db (.ok r) retryFetch).resp =
        .plainText 200
          (appendLinkId (FASTAPI_PUBLIC_BASE_URL ++ ("/openedx-proxy" ++ pyStrip r.body)) lid) := by
  intro path referer cookies qp db lid ul tok r retryFetch hres hlid hfl hft htok hstat hne hsl
    hlen hlt hnl hpr hhttp
  unfold openedxProxyPost openedxProxyPostResp postClassify postBodyClassify
  simp [hres, data_isEmpty_false_of_ne hlid, hfl, hft, data_isEmpty_false_of_ne htok,
    hstat, data_isEmpty_false_of_ne hne, hsl, hlen, hlt, hnl, hpr, hhttp]

/-- Witness for C6: the spec scenario-5 enrollment response. -/
theorem c6_witness :
    (openedxProxyPost "change_enrollment" "" [("edx_link_id", "L1")] []
        { links := [{ link_id := "L1", email := "a@x.com" }],
          tokens := [{ email := "a@x.com", access_token := "S1", password := "pw" }] }
        (.ok { status := 200, location := "", contentTypeResp := "text/plain",
               body := "/course_modes/choose/abc+run/", cookies := [] })
        (.reqError "unused")).resp =
      .plainText 200
        (appendLinkId (FASTAPI_PUBLIC_BASE_URL ++
          ("/openedx-proxy" ++ pyStrip "/course_modes/choose/abc+run/")) "L1") :=
  c6_bare_path_response "change_enrollment" "" [("edx_link_id", "L1")] []
    { links := [{ link_id := "L1", email := "a@x.com" }],
      tokens := [{ email := "a@x.com", access_token := "S1", password := "pw" }] }
    "L1" { link_id := "L1", email := "a@x.com" }
    { email := "a@x.com", access_token := "S1", password := "pw" }
    { status := 200, location := "", contentTypeResp := "text/plain",
      body := "/course_modes/choose/abc+run/", cookies := [] }
    (.reqError "unused")
    (by decide) (by decide) (by decide) (by decide) (by decide) (by decide) (by decide)
    (by decide) (by decide) (by decide) (by decide) (by decide) (by decide)

/-- Looking up the key just set returns the new value. -/
theorem lookupStr_setStr_self (m : List (String × String)) (k v : String) :
    lookupStr (setStr m k v) k = some v := by
  unfold lookupStr setStr
  induction m with
  | nil => simp [List.find?_cons]
  | cons a rest ih =>
    cases ha : (a.1 == k) with
    | true =>
      have hb : (a.1 != k) = false := by simp [bne, ha]
      simp only [List.filter_cons, hb, if_false, Bool.false_eq_true]
      exact ih
    | false =>
      have hb : (a.1 != k) = true := by simp [bne, ha]
      simp only [List.filter_cons, hb, if_true, List.cons_append, List.find?_cons, ha]
      exact ih

/-- Setting one key leaves lookups of other keys unchanged. -/
theorem lookupStr_setStr_ne (m : List (String × String)) (k k' v : String) (h : k' ≠ k) :
    lookupStr (setStr m k v) k' = lookupStr m k' := by
  unfold lookupStr setStr
  induction m with
  | nil =>
    have : (k == k') = false := by
      simp only [beq_eq_false_iff_ne]
      exact fun he => h he.symm
    simp [List.find?_cons, this]
  | cons a rest ih =>
    cases ha : (a.1 == k) with
    | true =>
      have hb : (a.1 != k) = false := by simp [bne, ha]
      have ha' : (a.1 == k') = false := by
        simp only [beq_eq_false_iff_ne]
        intro he
        exact h (he ▸ (eq_of_beq ha))
      simpa [List.filter_cons, hb, List.find?_cons, ha'] using ih
    | false =>
      have hb : (a.1 != k) = true := by simp [bne, ha]
      cases ha' : (a.1 == k') with
      | true => simp [List.filter_cons, hb, List.find?_cons, ha']
      | false => simpa [List.filter_cons, hb, List.find?_cons, ha'] using ih

/-- Claim C7: when a POST body (multipart or URL-encoded) carries a
`csrfmiddlewaretoken` field with value `T`, the outbound upstream request
carries both CSRF cookies and both CSRF headers set to `T`, overriding any
token that arrived in the inbound headers or cookies. -/
theorem c7_csrf_override :
    (∀ headers cookies contentType rawBody form referer path stored T,
        strContains contentType "multipart/form-data" = true →
        extractCsrfMultipart rawBody = some T →
        lookupStr (postOutbound headers cookies contentType rawBody form
          referer path stored).cookies "csrftoken" = some T
        ∧ lookupStr (postOutbound headers cookies contentType rawBody form
          referer path stored).cookies "edxcsrftoken" = some T
        ∧ lookupStr (postOutbound headers cookies contentType rawBody form
          referer path stored).headers "X-CSRFToken" = some T
        ∧ lookupStr (postOutbound headers cookies contentType rawBody form
          referer path stored).headers "X-CSRF-Token" = some T)
  ∧ (∀ headers cookies contentType rawBody form referer path stored T,
        strContains contentType "multipart/form-data" = false →
        strContains contentType "application/x-www-form-urlencoded" = true →
        lookupStr form "csrfmiddlewaretoken" = some T → T ≠ "" →
        lookupStr (postOutbound headers cookies contentType rawBody form
          referer path stored).cookies "csrftoken" = some T
        ∧ lookupStr (postOutbound headers cookies contentType rawBody form
          referer path stored).cookies "edxcsrftoken" = some T
        ∧ lookupStr (postOutbound headers cookies contentType rawBody form
          referer path stored).headers "X-CSRFToken" = some T
        ∧ lookupStr (postOutbound headers cookies contentType rawBody form
          referer path stored).headers "X-CSRF-Token" = some T) := by
  constructor
  · intro headers cookies contentType rawBody form referer path stored T hmp hex
    unfold postOutbound
    simp only [hmp, hex, if_true]
    refine ⟨?_, ?_, ?_, ?_⟩
    · rw [lookupStr_setStr_ne _ _ _ _ (by decide)]
      exact lookupStr_setStr_self _ _ _
    · exact lookupStr_setStr_self _ _ _
    · rw [lookupStr_setStr_ne _ _ _ _ (by decide), lookupStr_setStr_ne _ _ _ _ (by decide)]
      exact lookupStr_setStr_self _ _ _
    · rw [lookupStr_setStr_ne _ _ _ _ (by decide)]
      exact lookupStr_setStr_self _ _ _
  · intro headers cookies contentType rawBody form referer path stored T hmp hul hform hT
    unfold postOutbound
    simp only [hmp, hul, hform, if_false, if_true, Bool.false_eq_true, data_isEmpty_false_of_ne hT,
      Bool.not_false]
    refine ⟨?_, ?_, ?_, ?_⟩
    · rw [lookupStr_setStr_ne _ _ _ _ (by decide)]
      exact lookupStr_setStr_self _ _ _
    · exact lookupStr_setStr_self _ _ _
    · rw [lookupStr_setStr_ne _ _ _ _ (by decide)]
      exact lookupStr_setStr_self _ _ _
    · exact lookupStr_setStr_self _ _ _

/-- Witness for C7: a multipart body carrying `csrfmiddlewaretoken=T1`
overrides the inbound header token `OLD` and cookie token `OLD2`. -/
theorem c7_witness :
    lookupStr (postOutbound [("x-csrftoken", "OLD")] [("csrftoken", "OLD2")]
        "multipart/form-data; boundary=b"
        "--b\r\nContent-Disposition: form-data; name=\"csrfmiddlewaretoken\"\r\n\r\nT1\r\n--b--"
        [] "ref" "p" "S1").cookies "csrftoken" = some "T1" :=
  (c7_csrf_override.1 [("x-csrftoken", "OLD")] [("csrftoken", "OLD2")]
    "multipart/form-data; boundary=b"
    "--b\r\nContent-Disposition: form-data; name=\"csrfmiddlewaretoken\"\r\n\r\nT1\r\n--b--"
    [] "ref" "p" "S1" "T1" (by decide) (by decide)).1

/-- Counterexample to C8 as stated: the auto-login terminal failure body
includes the default password among its `tried_passwords`. -/
theorem c8_counterexample :
    (autoLoginFailureDetail "a@x.com").tried_passwords.contains DEFAULT_USER_PASSWORD = true := by
  decide

/-- Claim C8 (amended): the fixed error bodies of the proxy endpoints
(timeout and connection errors) contain no candidate or default password and
do not depend on any password, but the auto-login terminal failure body lists
every tried candidate password, the default password included. -/
theorem c8_amended_no_leak_in_proxy_errors :
    (∀ p ∈ password_strategies,
        strContains postTimeoutDetail p = false ∧ strContains postConnDetail p = false ∧
        strContains staticTimeoutBody p = false ∧ strContains staticConnBody p = false)
  ∧ (∀ email, (autoLoginFailureDetail email).tried_passwords = password_strategies) :=
  ⟨by decide, fun _ => rfl⟩

/-- Witness for the amended C8 at the default password. -/
theorem c8_witness :
    strContains postTimeoutDetail DEFAULT_USER_PASSWORD = false ∧
    strContains postConnDetail DEFAULT_USER_PASSWORD = false ∧
    strContains staticTimeoutBody DEFAULT_USER_PASSWORD = false ∧
    strContains staticConnBody DEFAULT_USER_PASSWORD = false :=
  c8_amended_no_leak_in_proxy_errors.1 DEFAULT_USER_PASSWORD (by decide)

/-- Counterexample to C9 as stated: an upstream timeout on the GET navigation
proxy is surfaced as a 500, not 504. -/
theorem c9_counterexample :
    ((openedxProxyGet "dashboard" "http://localhost:8000/dashboard-proxy/L1" [] []
        { links := [{ link_id := "L1", email := "a@x.com" }],
          tokens := [{ email := "a@x.com", access_token := "S1", password := "pw" }] }
        (.timeout "timed out")).resp).statusOf = 500
  ∧ (500 : Nat) ≠ 504 :=
  ⟨by decide, by decide⟩

/-- Claim C9 (amended): on an upstream timeout the static-asset proxy answers
504 without retrying; the GET navigation proxy maps every request exception —
timeouts included — to a 500 `HTTPException` without retrying; the POST
navigation proxy catches the timeout in its inner form-handling `except`
block (line 1555) and retries once with the raw request body: a successful
retry is classified like any other response, and a second failure yields 500
with `"Error processing request: ..."`, so the POST handler's dedicated 504
timeout response is unreachable for upstream-call timeouts. -/
theorem c9_amended_timeout_statuses :
    (∀ path qp m, openedxStaticProxy path qp (.timeout m) = .plainText 504 staticTimeoutBody)
  ∧ (∀ path referer cookies qp db m m2 lid ul tok,
        resolveLinkId referer cookies qp db = some lid → lid ≠ "" →
        findLink db lid = some ul → findToken db ul.email = some tok →
        tok.access_token ≠ "" →
        (openedxProxyPost path referer cookies qp db (.timeout m) (.timeout m2)).resp =
          .jsonDetail 500 ("Error processing request: " ++ m))
  ∧ (∀ path referer cookies qp db m r lid ul tok,
        resolveLinkId referer cookies qp db = some lid → lid ≠ "" →
        findLink db lid = some ul → findToken db ul.email = some tok →
        tok.access_token ≠ "" →
        (openedxProxyPost path referer cookies qp db (.timeout m) (.ok r)).resp =
          postClassify path lid r)
  ∧ (∀ path referer cookies qp db m lid ul tok,
        strStarts path "static/" = false → strStarts path "asset-v1:" = false →
        resolveLinkId referer cookies qp db = some lid → lid ≠ "" →
        findLink db lid = some ul → findToken db ul.email = some tok →
        tok.access_token ≠ "" →
        (openedxProxyGet path referer cookies qp db (.timeout m)).resp =
          .httpError 500 ("Proxy request failed: " ++ m)) := by
  refine ⟨fun _ _ _ => rfl, ?_, ?_, ?_⟩
  · intro path referer cookies qp db m m2 lid ul tok hres hlid hfl hft htok
    unfold openedxProxyPost openedxProxyPostResp
    simp [hres, data_isEmpty_false_of_ne hlid, hfl, hft, data_isEmpty_false_of_ne htok]
  · intro path referer cookies qp db m r lid ul tok hres hlid hfl hft htok
    unfold openedxProxyPost openedxProxyPostResp
    simp [hres, data_isEmpty_false_of_ne hlid, hfl, hft, data_isEmpty_false_of_ne htok]
  · intro path referer cookies qp db m lid ul tok hs1 hs2 hres hlid hfl hft htok
    unfold openedxProxyGet openedxProxyGetResp
    simp [hs1, hs2, hres, data_isEmpty_false_of_ne hlid, hfl, hft, data_isEmpty_false_of_ne htok]

/-- Witness for the amended C9: a POST timeout on a resolvable request whose
raw-body retry also times out yields the 500 body built from the first
failure. -/
theorem c9_witness :
    (openedxProxyPost "change_enrollment" "" [("edx_link_id", "L1")] []
        { links := [{ link_id := "L1", email := "a@x.com" }],
          tokens := [{ email := "a@x.com", access_token := "S1", password := "pw" }] }
        (.timeout "t") (.timeout "t2")).resp =
      .jsonDetail 500 ("Error processing request: " ++ "t") :=
  c9_amended_timeout_statuses.2.1 "change_enrollment" "" [("edx_link_id", "L1")] []
    { links := [{ link_id := "L1", email := "a@x.com" }],
      tokens := [{ email := "a@x.com", access_token := "S1", password := "pw" }] }
    "t" "t2" "L1" { link_id := "L1", email := "a@x.com" }
    { email := "a@x.com", access_token := "S1", password := "pw" }
    (by decide) (by decide) (by decide) (by decide) (by decide)

/-- Claim C10: the POST navigation proxy forwards every inbound query
parameter except `link_id`, which is removed; the GET navigation proxy
forwards the inbound query string (any `link_id` parameter included)
unchanged. -/
theorem c10_query_forwarding :
    (∀ qp (k v : String), (k, v) ∈ postQueryPairs qp ↔ ((k, v) ∈ qp ∧ k ≠ "link_id"))
  ∧ (∀ path qp, qp ≠ [] →
        getUpstreamUrl path qp =
          OPENEDX_API_BASE ++ ("/" ++ path) ++ ("?" ++ renderQuery qp))
  ∧ (∀ path qp, postQueryPairs qp ≠ [] →
        postUpstreamUrl path qp =
          OPENEDX_API_BASE ++ ("/" ++ path) ++ ("?" ++ renderQuery (postQueryPairs qp))) := by
  refine ⟨?_, ?_, ?_⟩
  · intro qp k v
    simp [postQueryPairs, List.mem_filter, bne_iff_ne]
  · intro path qp h
    have he : qp.isEmpty = false := by
      cases qp with
      | nil => exact absurd rfl h
      | cons a t => rfl
    unfold getUpstreamUrl
    simp [he]
  · intro path qp h
    have he : (postQueryPairs qp).isEmpty = false := by
      cases hq : postQueryPairs qp with
      | nil => exact absurd hq h
      | cons a t => rfl
    unfold postUpstreamUrl
    simp [he]

/-- Witness for C10: the GET URL keeps `link_id`, the POST pairs drop it. -/
theorem c10_witness :
    getUpstreamUrl "dashboard" [("link_id", "L1")] =
      OPENEDX_API_BASE ++ ("/" ++ "dashboard") ++ ("?" ++ renderQuery [("link_id", "L1")])
  ∧ (("a", "1") ∈ postQueryPairs [("a", "1"), ("link_id", "L1")] ∧ ("a" : String) ≠ "link_id") :=
  ⟨c10_query_forwarding.2.1 "dashboard" [("link_id", "L1")] (by decide),
   (c10_query_forwarding.1 [("a", "1"), ("link_id", "L1")] "a" "1").mpr (by decide),
   by decide⟩
